import Mathlib

/-!
Shallow embedding of the store-ratings backend (src/index.js).

Users, stores and ratings are rows in an in-memory database value; each
Express route handler becomes a pure function from a `DB` and its request
arguments to a `HandlerResult`, carrying the HTTP status, the response
payload and the successor database state.  JS numbers in rating positions
are modelled as rationals (the handler never forces integrality), and the
Prisma autoincrement ids are modelled with explicit counters in `DB`.
-/

namespace StoreApp

/-- Roles are the three strings accepted by the role checks in index.js. -/
inductive Role where
  | USER
  | OWNER
  | ADMIN
deriving DecidableEq, Repr

/-- A row of the User table (password hash omitted: no claim touches it). -/
structure User where
  id : Nat
  name : String
  email : String
  role : Role
deriving DecidableEq, Repr

/-- A row of the Store table. -/
structure Store where
  id : Nat
  name : String
  address : String
  ownerId : Nat
deriving DecidableEq, Repr

/-- A row of the Rating table; `rating` is a JS number, hence a rational. -/
structure Rating where
  id : Nat
  storeId : Nat
  userId : Nat
  rating : ℚ
deriving DecidableEq, Repr

/-- The database state, with autoincrement counters for new rows. -/
structure DB where
  users : List User
  stores : List Store
  ratings : List Rating
  nextStoreId : Nat
  nextRatingId : Nat
deriving DecidableEq, Repr

/-- The JWT payload signed in POST /login: `\x7bid: user.id, role: user.role\x7d`. -/
structure Token where
  id : Nat
  role : Role
deriving DecidableEq, Repr

/-- Outcome of one handler call: HTTP 200 with a payload and the new state,
or an error status with its message and the state as the handler left it. -/
inductive HandlerResult (α : Type) where
  | success (value : α) (db : DB)
  | failure (status : Nat) (msg : String) (db : DB)
deriving DecidableEq

/-- HTTP status of a handler outcome (200 on success). -/
def HandlerResult.statusOf : HandlerResult α → Nat
  | .success _ _ => 200
  | .failure s _ _ => s

/-- Database state after a handler call. -/
def HandlerResult.dbOf : HandlerResult α → DB
  | .success _ db => db
  | .failure _ _ db => db

/-- validateName: 20 to 60 characters (JS truthiness adds nothing: the
empty string already fails the lower bound). -/
def validateName (name : String) : Bool :=
  20 ≤ name.length && name.length ≤ 60

/-- validateAddress: truthy and at most 400 characters; the empty string is
falsy in JS and thus invalid. -/
def validateAddress (address : String) : Bool :=
  !(address == "") && address.length ≤ 400

/-- A character allowed in each segment of the email regex: not whitespace
and not an at sign. -/
def emailChar (c : Char) : Bool :=
  !c.isWhitespace && !(c == '@')

/-- validateEmail: the string matches the anchored regex
local at domain dot tld, where each of the three segments is one or more
characters that are neither whitespace nor an at sign (so exactly one at
sign overall, and in the part after it some dot has a nonempty segment on
both sides). -/
def validateEmail (email : String) : Bool :=
  match email.toList.splitOn '@' with
  | [localPart, domainPart] =>
    !localPart.isEmpty && localPart.all emailChar &&
    domainPart.all emailChar && (domainPart.drop 1).dropLast.contains '.'
  | _ => false

/-- Lookup of a user row by id (prisma.user.findUnique on id). -/
def findUser (db : DB) (userId : Nat) : Option User :=
  db.users.find? (fun u => u.id == userId)

/-- Lookup of a store row by id (prisma.store.findUnique on id). -/
def findStore (db : DB) (storeId : Nat) : Option Store :=
  db.stores.find? (fun s => s.id == storeId)

/-- Number of stores owned by a user (the `_count.stores` of the delete
guard). -/
def userStoreCount (db : DB) (userId : Nat) : Nat :=
  (db.stores.filter (fun s => s.ownerId == userId)).length

/-- Number of ratings authored by a user (the `_count.ratings` of the
delete guard). -/
def userRatingCount (db : DB) (userId : Nat) : Nat :=
  (db.ratings.filter (fun r => r.userId == userId)).length

/-- POST /stores/:id/rate.  The caller is the decoded token (authMiddleware
sets req.user to the JWT payload).  The role gate runs first; the value
check is the JS test `not rating, or rating below 1, or rating above 5`
(`!rating` on a number means the value 0, NaN aside); then the store
lookup; then find-or-upsert keyed on the (storeId, userId) pair, an update
preserving the row id when a rating exists and a create at the next
autoincrement id otherwise. -/
def submitRating (db : DB) (tok : Token) (storeId : Nat) (value : ℚ) :
    HandlerResult Rating :=
  if tok.role ≠ Role.USER then
    .failure 403 "Only normal users can rate stores" db
  else if value = 0 ∨ value < 1 ∨ value > 5 then
    .failure 400 "Rating must be between 1 and 5" db
  else
    match findStore db storeId with
    | none => .failure 404 "Store not found" db
    | some _ =>
      match db.ratings.find? (fun r => r.storeId == storeId && r.userId == tok.id) with
      | some existing =>
        let updated : Rating := { existing with rating := value }
        .success updated
          { db with ratings :=
              db.ratings.map (fun r => if r.id == existing.id then updated else r) }
      | none =>
        let created : Rating :=
          { id := db.nextRatingId, storeId := storeId, userId := tok.id, rating := value }
        .success created
          { db with ratings := db.ratings ++ [created],
                    nextRatingId := db.nextRatingId + 1 }

/-- The ratings of one store, as included on each store row by the list
endpoints. -/
def storeRatings (db : DB) (storeId : Nat) : List Rating :=
  db.ratings.filter (fun r => r.storeId == storeId)

/-- The JS reduce summing the rating values of a store. -/
def ratingSum (rs : List Rating) : ℚ :=
  (rs.map Rating.rating).sum

/-- The conditional average of the list endpoints: sum over length when
there is at least one rating, the number 0 otherwise. -/
def rawAverage (rs : List Rating) : ℚ :=
  if rs.length > 0 then ratingSum rs / (rs.length : ℚ) else 0

/-- toFixed(1) followed by parseFloat: round to the nearest tenth, ties
going to the larger value, as an exact operation on rationals. -/
def roundTo1 (q : ℚ) : ℚ :=
  ((⌊q * 10 + 1 / 2⌋ : ℤ) : ℚ) / 10

/-- The averageRating field computed by GET /stores (and the other listing
endpoints) for one store. -/
def averageRating (db : DB) (storeId : Nat) : ℚ :=
  roundTo1 (rawAverage (storeRatings db storeId))

/-- The totalRatings field computed by GET /stores for one store. -/
def totalRatings (db : DB) (storeId : Nat) : Nat :=
  (storeRatings db storeId).length

/-- DELETE /admin/users/:id.  The handler reads `_count` off the looked-up
user without a null check, so an absent id raises a TypeError that the
catch block converts into a 500; an existing user with stores or ratings
is refused with 400; otherwise the row is deleted. -/
def deleteUser (db : DB) (userId : Nat) : HandlerResult Unit :=
  match findUser db userId with
  | none => .failure 500 "TypeError: cannot read _count of null" db
  | some _ =>
    if userStoreCount db userId > 0 ∨ userRatingCount db userId > 0 then
      .failure 400 "Cannot delete user with stores or ratings" db
    else
      .success () { db with users := db.users.filter (fun u => u.id != userId) }

/-- PUT /admin/users/:id.  Field validations first (the role is total here
since `Role` is the closed enumeration the JS membership test enforces);
prisma.user.update then fails when the row is absent, which the generic
catch turns into a 500, or with P2002 mapped to 400 when the new email
belongs to another user; otherwise the row is rewritten in place. -/
def updateUser (db : DB) (userId : Nat) (name email : String) (role : Role) :
    HandlerResult User :=
  if !validateName name then
    .failure 400 "Name must be 20-60 characters" db
  else if !validateEmail email then
    .failure 400 "Invalid email format" db
  else
    match findUser db userId with
    | none => .failure 500 "Record to update not found" db
    | some u =>
      if db.users.any (fun v => v.email == email && v.id != userId) then
        .failure 400 "Email already exists" db
      else
        let updated : User := { u with name := name, email := email, role := role }
        .success updated
          { db with users := db.users.map (fun v => if v.id == userId then updated else v) }

/-- POST /stores: validations, then the owner must exist and have role
OWNER, then the store row is created at the next autoincrement id. -/
def createStore (db : DB) (name address : String) (ownerId : Nat) :
    HandlerResult Store :=
  if !validateName name then
    .failure 400 "Name must be 20-60 characters" db
  else if !validateAddress address then
    .failure 400 "Address must be up to 400 characters" db
  else
    match findUser db ownerId with
    | none => .failure 400 "Invalid owner ID or user is not a store owner" db
    | some owner =>
      if owner.role ≠ Role.OWNER then
        .failure 400 "Invalid owner ID or user is not a store owner" db
      else
        let created : Store :=
          { id := db.nextStoreId, name := name, address := address, ownerId := ownerId }
        .success created
          { db with stores := db.stores ++ [created],
                    nextStoreId := db.nextStoreId + 1 }

/-- PUT /admin/stores/:id: validations and the same owner check as
creation; prisma.store.update on an absent id throws, caught as a 500;
otherwise the row is rewritten in place. -/
def updateStore (db : DB) (storeId : Nat) (name address : String) (ownerId : Nat) :
    HandlerResult Store :=
  if !validateName name then
    .failure 400 "Name must be 20-60 characters" db
  else if !validateAddress address then
    .failure 400 "Address must be up to 400 characters" db
  else
    match findUser db ownerId with
    | none => .failure 400 "Invalid owner ID or user is not a store owner" db
    | some owner =>
      if owner.role ≠ Role.OWNER then
        .failure 400 "Invalid owner ID or user is not a store owner" db
      else
        match findStore db storeId with
        | none => .failure 500 "Record to update not found" db
        | some s =>
          let updated : Store := { s with name := name, address := address, ownerId := ownerId }
          .success updated
            { db with stores := db.stores.map (fun t => if t.id == storeId then updated else t) }

/-- DELETE /admin/stores/:id: ratings of the store are deleted first
(deleteMany), then the store row itself; prisma.store.delete on an absent
id throws after the deleteMany already ran, caught as a 500. -/
def deleteStore (db : DB) (storeId : Nat) : HandlerResult Unit :=
  match findStore db storeId with
  | none =>
    .failure 500 "Record to delete does not exist"
      { db with ratings := db.ratings.filter (fun r => !(r.storeId == storeId)) }
  | some _ =>
    .success ()
      { db with ratings := db.ratings.filter (fun r => !(r.storeId == storeId)),
                stores := db.stores.filter (fun t => t.id != storeId) }

/-- jwt.sign in POST /login: the payload captures the id and the role the
user row has at login time. -/
def issueToken (u : User) : Token :=
  { id := u.id, role := u.role }

/-- expiresIn of jwt.sign, in hours. -/
def tokenExpiresInHours : Nat := 24

/-- adminMiddleware passes exactly when the decoded token carries ADMIN. -/
def adminAllows (tok : Token) : Bool :=
  tok.role == Role.ADMIN

/-- Ordering used by the dashboard topStores query: store `a` precedes
store `b` when `a` has at least as many ratings. -/
def byRatingCountDesc (db : DB) : Store → Store → Prop :=
  fun a b => totalRatings db b.id ≤ totalRatings db a.id

instance (db : DB) : DecidableRel (byRatingCountDesc db) :=
  fun _ _ => Nat.decLe _ _

instance (db : DB) : IsTotal Store (byRatingCountDesc db) :=
  ⟨fun _ _ => Nat.le_total _ _⟩

instance (db : DB) : IsTrans Store (byRatingCountDesc db) :=
  ⟨fun _ _ _ hab hbc => le_trans hbc hab⟩

/-- The stores ordered by rating count, descending (the orderBy of the
dashboard query). -/
def sortedStores (db : DB) : List Store :=
  db.stores.insertionSort (byRatingCountDesc db)

/-- The five stores the dashboard keeps (`take: 5`). -/
def topStoreList (db : DB) : List Store :=
  (sortedStores db).take 5

/-- One entry of the dashboard topStores response. -/
structure TopStoreEntry where
  id : Nat
  name : String
  averageRating : ℚ
  totalRatings : Nat
  ownerName : String
deriving DecidableEq, Repr

/-- The owner name included on each top store (the FK is non-null, so the
empty-string default is never taken on a well-formed database). -/
def ownerNameOf (db : DB) (s : Store) : String :=
  match findUser db s.ownerId with
  | some u => u.name
  | none => ""

/-- Shape one store into its dashboard topStores entry. -/
def mkTopEntry (db : DB) (s : Store) : TopStoreEntry :=
  { id := s.id
    name := s.name
    averageRating := averageRating db s.id
    totalRatings := totalRatings db s.id
    ownerName := ownerNameOf db s }

/-- The GET /admin/dashboard response body. -/
structure Dashboard where
  totalUsers : Nat
  totalStores : Nat
  totalRatings : Nat
  usersByRole : Role → Nat
  topStores : List TopStoreEntry

/-- GET /admin/dashboard: global counts, the per-role user counts of the
groupBy, and the five stores with the most ratings shaped into entries. -/
def dashboard (db : DB) : Dashboard :=
  { totalUsers := db.users.length
    totalStores := db.stores.length
    totalRatings := db.ratings.length
    usersByRole := fun r => (db.users.filter (fun u => u.role == r)).length
    topStores := (topStoreList db).map (mkTopEntry db) }

/-- A normal user for concrete evaluations. -/
def demoUser : User :=
  { id := 1, name := "Constantine Examplename", email := "user@example.com", role := Role.USER }

/-- A store owner for concrete evaluations. -/
def demoOwner : User :=
  { id := 2, name := "Penelope Storekeeperson", email := "owner@example.com", role := Role.OWNER }

/-- A store owned by `demoOwner`. -/
def demoStore : Store :=
  { id := 1, name := "The Example Store Number One", address := "1 Main Street", ownerId := 2 }

/-- The token `demoUser` receives at login. -/
def demoTok : Token := { id := 1, role := Role.USER }

/-- A database with one user, one owner, one store and no ratings. -/
def demoDB : DB :=
  { users := [demoUser, demoOwner], stores := [demoStore], ratings := [],
    nextStoreId := 2, nextRatingId := 1 }

/-- The empty database. -/
def emptyDB : DB :=
  { users := [], stores := [], ratings := [], nextStoreId := 1, nextRatingId := 1 }

/-- A database whose store 1 carries the ratings 5, 4 and 3. -/
def demo543DB : DB :=
  { users := [demoUser, demoOwner], stores := [demoStore],
    ratings := [{ id := 1, storeId := 1, userId := 1, rating := 5 },
                { id := 2, storeId := 1, userId := 3, rating := 4 },
                { id := 3, storeId := 1, userId := 4, rating := 3 }],
    nextStoreId := 2, nextRatingId := 4 }

/-- Rounding to one decimal place fixes every integer. -/
theorem roundTo1_intCast (n : ℤ) : roundTo1 ((n : ℤ) : ℚ) = ((n : ℤ) : ℚ) := by
  unfold roundTo1
  have hfl : ⌊((n : ℤ) : ℚ) * 10 + 1 / 2⌋ = 10 * n := by
    rw [Int.floor_eq_iff]
    constructor
    · push_cast
      linarith
    · push_cast
      linarith
  rw [hfl]
  push_cast
  ring

/-- The 403 of the rating endpoint fires exactly for non-USER tokens: every
later branch answers 400, 404 or 200. -/
theorem submitRating_status403_iff (db : DB) (tok : Token) (sid : Nat) (v : ℚ) :
    (submitRating db tok sid v).statusOf = 403 ↔ tok.role ≠ Role.USER := by
  unfold submitRating
  by_cases h : tok.role = Role.USER
  · have hne : ¬ tok.role ≠ Role.USER := not_not_intro h
    rw [if_neg hne]
    simp only [hne, iff_false]
    split
    · simp [HandlerResult.statusOf]
    · split
      · simp [HandlerResult.statusOf]
      · split <;> simp [HandlerResult.statusOf]
  · rw [if_pos h]
    simp [HandlerResult.statusOf, h]

/-- C3: a caller may rate a store exactly when the token role is USER; an
OWNER or ADMIN caller receives the 403 failure with the database
untouched, and the decision reads nothing but the token role. -/
theorem rate_store_requires_USER_role (db : DB) (tok : Token) (sid : Nat) (v : ℚ) :
    ((submitRating db tok sid v).statusOf = 403 ↔ tok.role ≠ Role.USER) ∧
    (tok.role = Role.OWNER ∨ tok.role = Role.ADMIN →
      submitRating db tok sid v = .failure 403 "Only normal users can rate stores" db) := by
  refine ⟨submitRating_status403_iff db tok sid v, fun h => ?_⟩
  have hne : tok.role ≠ Role.USER := by rcases h with h | h <;> simp [h]
  unfold submitRating
  rw [if_pos hne]

/-- C2: the listing aggregate reports the exact rating count, and an
average equal to the rating sum over the count rounded to one decimal
place, with the average equal to 0 when the count is 0; on the concrete
ratings 5, 4 and 3 it reports count 3 and average 4. -/
theorem store_aggregate_spec (db : DB) (sid : Nat) :
    totalRatings db sid = (storeRatings db sid).length ∧
    averageRating db sid =
      (if (storeRatings db sid).length = 0 then 0
       else roundTo1 (ratingSum (storeRatings db sid) / ((storeRatings db sid).length : ℚ))) ∧
    totalRatings demo543DB 1 = 3 ∧ averageRating demo543DB 1 = 4 := by
  refine ⟨rfl, ?_, rfl, ?_⟩
  · by_cases h : (storeRatings db sid).length = 0
    · rw [if_pos h]
      unfold averageRating rawAverage
      rw [h]
      norm_num
      simpa using roundTo1_intCast 0
    · rw [if_neg h]
      unfold averageRating rawAverage
      rw [if_pos (Nat.pos_of_ne_zero h)]
  · have h : averageRating demo543DB 1 =
        roundTo1 (((5 : ℚ) + ((4 : ℚ) + ((3 : ℚ) + 0))) / ((3 : ℕ) : ℚ)) := rfl
    rw [h, show (((5 : ℚ) + ((4 : ℚ) + ((3 : ℚ) + 0))) / ((3 : ℕ) : ℚ)) = ((4 : ℤ) : ℚ) by
      norm_num]
    rw [roundTo1_intCast 4]
    norm_num

/-- C7 counterexample: the value seven halves is not an integer, yet the
handler accepts it and stores it: the validation checks only falsiness and
the closed interval bounds, never integrality. -/
theorem noninteger_rating_accepted :
    (3 : ℚ) < 7 / 2 ∧ (7 / 2 : ℚ) < 4 ∧ (∀ n : ℤ, ((n : ℤ) : ℚ) ≠ 7 / 2) ∧
    submitRating demoDB demoTok 1 (7 / 2) =
      .success { id := 1, storeId := 1, userId := 1, rating := 7 / 2 }
        { demoDB with
            ratings := [{ id := 1, storeId := 1, userId := 1, rating := 7 / 2 }],
            nextRatingId := 2 } := by
  refine ⟨by norm_num, by norm_num, ?_, ?_⟩
  · intro n hn
    have h3 : (3 : ℤ) < n := by
      have : (3 : ℚ) < ((n : ℤ) : ℚ) := by rw [hn]; norm_num
      exact_mod_cast this
    have h4 : n < (4 : ℤ) := by
      have : ((n : ℤ) : ℚ) < 4 := by rw [hn]; norm_num
      exact_mod_cast this
    omega
  · have hrole : ¬ demoTok.role ≠ Role.USER := by decide
    have hval : ¬((7 / 2 : ℚ) = 0 ∨ (7 / 2 : ℚ) < 1 ∨ (7 / 2 : ℚ) > 5) := by norm_num
    unfold submitRating
    rw [if_neg hrole, if_neg hval]
    rfl

/-- C7 amended: for a USER caller, a value that is 0, below 1 or above 5
is rejected with the 400 validation failure and the database is unchanged;
integrality is not checked, so a non-integer value inside the bounds
passes validation and is stored. -/
theorem rating_range_rejected (db : DB) (tok : Token) (sid : Nat) (v : ℚ)
    (hrole : tok.role = Role.USER) (hout : v = 0 ∨ v < 1 ∨ v > 5) :
    submitRating db tok sid v = .failure 400 "Rating must be between 1 and 5" db := by
  unfold submitRating
  rw [if_neg (not_not_intro hrole), if_pos hout]

/-- Witness for the amended C7 statement at the value 6. -/
theorem rating_range_rejected_witness :
    submitRating demoDB demoTok 1 6 = .failure 400 "Rating must be between 1 and 5" demoDB :=
  rating_range_rejected demoDB demoTok 1 6 rfl (by norm_num)

/-- C8 counterexample: deleting the absent user 1 from the empty database
answers 500 (the null `_count` access throws into the generic catch), not
the 404 the claim requires. -/
theorem missing_user_delete_returns_500 :
    findUser emptyDB 1 = none ∧
    deleteUser emptyDB 1 = .failure 500 "TypeError: cannot read _count of null" emptyDB ∧
    (deleteUser emptyDB 1).statusOf ≠ 404 := by
  decide

/-- C8 amended: rating an absent store answers 404 with the state
untouched; updating or deleting an absent user, and updating or deleting
an absent store, answer 500 (the lookup or update error falls into the
generic catch), not 404, again with the state untouched — for store
deletion provided no rating references the absent store, since the
deleteMany runs before the failing store delete. -/
theorem missing_id_responses :
    (∀ (db : DB) (tok : Token) (sid : Nat) (v : ℚ), tok.role = Role.USER →
      ¬(v = 0 ∨ v < 1 ∨ v > 5) → findStore db sid = none →
      submitRating db tok sid v = .failure 404 "Store not found" db) ∧
    (∀ (db : DB) (uid : Nat), findUser db uid = none →
      deleteUser db uid = .failure 500 "TypeError: cannot read _count of null" db) ∧
    (∀ (db : DB) (uid : Nat) (nm em : String) (rl : Role),
      validateName nm = true → validateEmail em = true → findUser db uid = none →
      updateUser db uid nm em rl = .failure 500 "Record to update not found" db) ∧
    (∀ (db : DB) (sid : Nat) (nm ad : String) (oid : Nat) (owner : User),
      validateName nm = true → validateAddress ad = true →
      findUser db oid = some owner → owner.role = Role.OWNER → findStore db sid = none →
      updateStore db sid nm ad oid = .failure 500 "Record to update not found" db) ∧
    (∀ (db : DB) (sid : Nat), findStore db sid = none →
      (∀ r ∈ db.ratings, r.storeId ≠ sid) →
      deleteStore db sid = .failure 500 "Record to delete does not exist" db) := by
  refine ⟨?_, ?_, ?_, ?_, ?_⟩
  · intro db tok sid v hrole hv hfind
    unfold submitRating
    rw [if_neg (not_not_intro hrole), if_neg hv, hfind]
  · intro db uid hfind
    unfold deleteUser
    rw [hfind]
  · intro db uid nm em rl hnm hem hfind
    simp [updateUser, hnm, hem, hfind]
  · intro db sid nm ad oid owner hnm had howner hrole hfind
    simp [updateStore, hnm, had, howner, hrole, hfind]
  · intro db sid hfind hno
    have hfilter : db.ratings.filter (fun r => !(r.storeId == sid)) = db.ratings :=
      List.filter_eq_self.mpr (fun r hr => by simp [hno r hr])
    unfold deleteStore
    rw [hfind, hfilter]

/-- Witness for the amended C8 statement: rating the absent store 9
answers 404, and deleting the absent user 1 answers 500, both on the empty
database. -/
theorem missing_id_responses_witness :
    submitRating emptyDB demoTok 9 3 = .failure 404 "Store not found" emptyDB ∧
    deleteUser emptyDB 1 = .failure 500 "TypeError: cannot read _count of null" emptyDB :=
  ⟨missing_id_responses.1 emptyDB demoTok 9 3 rfl (by norm_num) rfl,
   missing_id_responses.2.1 emptyDB 1 rfl⟩

/-- C4: when the requested ownerId does not reference an existing user
whose role is OWNER at that moment, store creation and store update both
answer 400 and leave the database untouched (no store row is created or
modified); and a user update never touches the stores table, so changing
an owner to a non-OWNER role afterwards leaves every store it owns in
place, owned by a non-OWNER. -/
theorem store_owner_validated_at_write (db : DB) (name address : String)
    (ownerId storeId : Nat)
    (hbad : ∀ u ∈ db.users, u.id = ownerId → u.role ≠ Role.OWNER) :
    (createStore db name address ownerId).statusOf = 400 ∧
    (createStore db name address ownerId).dbOf = db ∧
    (updateStore db storeId name address ownerId).statusOf = 400 ∧
    (updateStore db storeId name address ownerId).dbOf = db ∧
    (∀ (uid : Nat) (nm em : String) (rl : Role),
      ((updateUser db uid nm em rl).dbOf).stores = db.stores) := by
  have hOwnerNone : ∀ u, findUser db ownerId = some u → u.role ≠ Role.OWNER := by
    intro u hu
    have hu' : db.users.find? (fun x => x.id == ownerId) = some u := hu
    have hid : u.id = ownerId := by
      have := List.find?_some hu'
      simpa using this
    exact hbad u (List.mem_of_find?_eq_some hu') hid
  have hcreate : (createStore db name address ownerId).statusOf = 400 ∧
      (createStore db name address ownerId).dbOf = db := by
    unfold createStore
    split
    · exact ⟨rfl, rfl⟩
    · split
      · exact ⟨rfl, rfl⟩
      · split
        · exact ⟨rfl, rfl⟩
        next u heq =>
          split
          · exact ⟨rfl, rfl⟩
          next h => exact absurd (hOwnerNone u heq) h
  have hupdate : (updateStore db storeId name address ownerId).statusOf = 400 ∧
      (updateStore db storeId name address ownerId).dbOf = db := by
    unfold updateStore
    split
    · exact ⟨rfl, rfl⟩
    · split
      · exact ⟨rfl, rfl⟩
      · split
        · exact ⟨rfl, rfl⟩
        next u heq =>
          split
          · exact ⟨rfl, rfl⟩
          next h => exact absurd (hOwnerNone u heq) h
  have huser : ∀ (uid : Nat) (nm em : String) (rl : Role),
      ((updateUser db uid nm em rl).dbOf).stores = db.stores := by
    intro uid nm em rl
    unfold updateUser
    split
    · rfl
    · split
      · rfl
      · split
        · rfl
        · split
          · rfl
          · rfl
  exact ⟨hcreate.1, hcreate.2, hupdate.1, hupdate.2, huser⟩

/-- Witness for C4 at ownerId 1, whose role is USER in the demo database. -/
theorem store_owner_validated_at_write_witness :
    (createStore demoDB "The Example Store Number Two" "2 Side Street" 1).statusOf = 400 ∧
    (createStore demoDB "The Example Store Number Two" "2 Side Street" 1).dbOf = demoDB ∧
    (updateStore demoDB 1 "The Example Store Number Two" "2 Side Street" 1).statusOf = 400 ∧
    (updateStore demoDB 1 "The Example Store Number Two" "2 Side Street" 1).dbOf = demoDB ∧
    (∀ (uid : Nat) (nm em : String) (rl : Role),
      ((updateUser demoDB uid nm em rl).dbOf).stores = demoDB.stores) :=
  store_owner_validated_at_write demoDB "The Example Store Number Two" "2 Side Street" 1 1
    (by decide)

/-- C5: deleting an existing user is refused with 400 and changes nothing
whenever the user owns a store or a rating; with neither, it succeeds and
removes exactly that user row, stores and ratings untouched (no cascade). -/
theorem delete_user_guard (db : DB) (uid : Nat) (u : User)
    (hu : findUser db uid = some u) :
    (userStoreCount db uid > 0 ∨ userRatingCount db uid > 0 →
      deleteUser db uid = .failure 400 "Cannot delete user with stores or ratings" db) ∧
    (userStoreCount db uid = 0 → userRatingCount db uid = 0 →
      deleteUser db uid =
        .success () { db with users := db.users.filter (fun v => v.id != uid) }) := by
  constructor
  · intro h
    unfold deleteUser
    rw [hu, if_pos h]
  · intro hs hr
    unfold deleteUser
    rw [hu, if_neg (by simp [hs, hr])]

/-- Witness for C5: in the demo database, deleting user 1 (no stores, no
ratings) succeeds; deleting user 2 (owns the store) is refused with 400. -/
theorem delete_user_guard_witness :
    deleteUser demoDB 1 =
      .success () { demoDB with users := demoDB.users.filter (fun v => v.id != 1) } ∧
    deleteUser demoDB 2 = .failure 400 "Cannot delete user with stores or ratings" demoDB :=
  ⟨(delete_user_guard demoDB 1 demoUser rfl).2 rfl rfl,
   (delete_user_guard demoDB 2 demoOwner rfl).1 (by decide)⟩

/-- C6: deleting an existing store succeeds, removes the store row and
every rating referencing it (the cascade leaves no orphan rating), and
leaves the users untouched. -/
theorem delete_store_cascades (db : DB) (sid : Nat) (s : Store)
    (hs : findStore db sid = some s) :
    deleteStore db sid =
      .success () { db with
        ratings := db.ratings.filter (fun r => !(r.storeId == sid)),
        stores := db.stores.filter (fun t => t.id != sid) } ∧
    (∀ r ∈ ((deleteStore db sid).dbOf).ratings, r.storeId ≠ sid) ∧
    (∀ t ∈ ((deleteStore db sid).dbOf).stores, t.id ≠ sid) ∧
    ((deleteStore db sid).dbOf).users = db.users := by
  have hmain : deleteStore db sid =
      .success () { db with
        ratings := db.ratings.filter (fun r => !(r.storeId == sid)),
        stores := db.stores.filter (fun t => t.id != sid) } := by
    unfold deleteStore
    rw [hs]
  refine ⟨hmain, ?_, ?_, ?_⟩
  · intro r hr
    rw [hmain] at hr
    simp only [HandlerResult.dbOf] at hr
    simpa using (List.mem_filter.mp hr).2
  · intro t ht
    rw [hmain] at ht
    simp only [HandlerResult.dbOf] at ht
    simpa using (List.mem_filter.mp ht).2
  · rw [hmain]
    rfl

/-- Witness for C6: deleting store 1 of the demo database with three
ratings removes the store and all three ratings. -/
theorem delete_store_cascades_witness :
    deleteStore demo543DB 1 =
      .success () { demo543DB with
        ratings := demo543DB.ratings.filter (fun r => !(r.storeId == 1)),
        stores := demo543DB.stores.filter (fun t => t.id != 1) } ∧
    (∀ r ∈ ((deleteStore demo543DB 1).dbOf).ratings, r.storeId ≠ 1) ∧
    (∀ t ∈ ((deleteStore demo543DB 1).dbOf).stores, t.id ≠ 1) ∧
    ((deleteStore demo543DB 1).dbOf).users = demo543DB.users :=
  delete_store_cascades demo543DB 1 demoStore rfl

/-- A first submission followed by a second with another value leaves
exactly one rating row for the (store, user) pair: the second call updates
the row created by the first in place, keeping its id and taking the new
value. -/
theorem resubmission_updates_in_place (db : DB) (tok : Token) (sid : Nat) (v1 v2 : ℚ)
    (hrole : tok.role = Role.USER)
    (hv1 : ¬(v1 = 0 ∨ v1 < 1 ∨ v1 > 5)) (hv2 : ¬(v2 = 0 ∨ v2 < 1 ∨ v2 > 5))
    (s : Store) (hstore : findStore db sid = some s)
    (hnone : db.ratings.find? (fun r => r.storeId == sid && r.userId == tok.id) = none)
    (hfresh : ∀ r ∈ db.ratings, r.id < db.nextRatingId) :
    ∃ r1 db1 r2 db2,
      submitRating db tok sid v1 = .success r1 db1 ∧
      submitRating db1 tok sid v2 = .success r2 db2 ∧
      r1.id = db.nextRatingId ∧ r2.id = r1.id ∧ r2.rating = v2 ∧
      db2.ratings = db.ratings ++ [r2] ∧
      db2.ratings.filter (fun r => r.storeId == sid && r.userId == tok.id) = [r2] := by
  have hroleNe : ¬ tok.role ≠ Role.USER := not_not_intro hrole
  refine ⟨{ id := db.nextRatingId, storeId := sid, userId := tok.id, rating := v1 },
    { db with
        ratings := db.ratings ++
          [{ id := db.nextRatingId, storeId := sid, userId := tok.id, rating := v1 }],
        nextRatingId := db.nextRatingId + 1 },
    { id := db.nextRatingId, storeId := sid, userId := tok.id, rating := v2 },
    { db with
        ratings := db.ratings ++
          [{ id := db.nextRatingId, storeId := sid, userId := tok.id, rating := v2 }],
        nextRatingId := db.nextRatingId + 1 },
    ?_, ?_, rfl, rfl, rfl, rfl, ?_⟩
  · unfold submitRating
    rw [if_neg hroleNe, if_neg hv1, hstore, hnone]
  · unfold submitRating
    rw [if_neg hroleNe, if_neg hv2]
    have hstore1 : findStore
        { db with
            ratings := db.ratings ++
              [{ id := db.nextRatingId, storeId := sid, userId := tok.id, rating := v1 }],
            nextRatingId := db.nextRatingId + 1 } sid = some s := hstore
    rw [hstore1]
    have hfind1 : (db.ratings ++
        [({ id := db.nextRatingId, storeId := sid, userId := tok.id, rating := v1 } : Rating)]).find?
          (fun r => r.storeId == sid && r.userId == tok.id) =
        some ({ id := db.nextRatingId, storeId := sid, userId := tok.id, rating := v1 } : Rating) := by
      rw [List.find?_append, hnone]
      simp
    rw [hfind1]
    dsimp only
    have hmap : (db.ratings ++
        [({ id := db.nextRatingId, storeId := sid, userId := tok.id, rating := v1 } : Rating)]).map
          (fun r => if r.id == db.nextRatingId then
            ({ id := db.nextRatingId, storeId := sid, userId := tok.id, rating := v2 } : Rating)
          else r) =
        db.ratings ++
          [({ id := db.nextRatingId, storeId := sid, userId := tok.id, rating := v2 } : Rating)] := by
      rw [List.map_append]
      congr 1
      · rw [List.map_congr_left (g := id) ?_, List.map_id]
        intro r hr
        have hne : (r.id == db.nextRatingId) = false := by
          simpa using Nat.ne_of_lt (hfresh r hr)
        simp [hne]
      · simp
    rw [hmap]
  · rw [List.filter_append]
    have h0 : db.ratings.filter (fun r => r.storeId == sid && r.userId == tok.id) = [] :=
      List.filter_eq_nil_iff.mpr (List.find?_eq_none.mp hnone)
    rw [h0]
    simp

/-- Witness for C1: user 1 rates store 1 with 3 and then with 5. -/
theorem resubmission_updates_in_place_witness :
    ∃ r1 db1 r2 db2,
      submitRating demoDB demoTok 1 3 = .success r1 db1 ∧
      submitRating db1 demoTok 1 5 = .success r2 db2 ∧
      r1.id = demoDB.nextRatingId ∧ r2.id = r1.id ∧ r2.rating = 5 ∧
      db2.ratings = demoDB.ratings ++ [r2] ∧
      db2.ratings.filter (fun r => r.storeId == 1 && r.userId == demoTok.id) = [r2] :=
  resubmission_updates_in_place demoDB demoTok 1 3 5 rfl (by norm_num) (by norm_num)
    demoStore rfl rfl (by simp [demoDB])

/-- C9: the dashboard reports the exact global counts and per-role user
counts; its topStores list holds at most five entries, each shaped from a
store of the database with that store's rounded average and rating count,
in descending rating-count order; and every store left out has at most as
many ratings as every store kept. -/
theorem dashboard_top_stores (db : DB) :
    (dashboard db).totalUsers = db.users.length ∧
    (dashboard db).totalStores = db.stores.length ∧
    (dashboard db).totalRatings = db.ratings.length ∧
    (∀ r, (dashboard db).usersByRole r = (db.users.filter (fun u => u.role == r)).length) ∧
    (dashboard db).topStores.length ≤ 5 ∧
    (dashboard db).topStores = (topStoreList db).map (mkTopEntry db) ∧
    List.Sorted (fun a b => b.totalRatings ≤ a.totalRatings) (dashboard db).topStores ∧
    (∀ e ∈ (dashboard db).topStores, ∃ t ∈ db.stores, e = mkTopEntry db t ∧
      e.averageRating = averageRating db t.id ∧ e.totalRatings = totalRatings db t.id) ∧
    (∀ t ∈ db.stores, t ∉ topStoreList db →
      ∀ u ∈ topStoreList db, totalRatings db t.id ≤ totalRatings db u.id) := by
  have hsorted : List.Sorted (byRatingCountDesc db) (sortedStores db) :=
    List.sorted_insertionSort (byRatingCountDesc db) db.stores
  have hperm : (sortedStores db).Perm db.stores :=
    List.perm_insertionSort (byRatingCountDesc db) db.stores
  have htake : List.Sorted (byRatingCountDesc db) (topStoreList db) :=
    List.Pairwise.sublist (List.take_sublist 5 (sortedStores db)) hsorted
  refine ⟨rfl, rfl, rfl, fun _ => rfl, ?_, rfl, ?_, ?_, ?_⟩
  · show ((topStoreList db).map (mkTopEntry db)).length ≤ 5
    rw [List.length_map]
    unfold topStoreList
    rw [List.length_take]
    exact Nat.min_le_left 5 _
  · exact List.pairwise_map.mpr htake
  · intro e he
    obtain ⟨t, ht, rfl⟩ := List.mem_map.mp he
    exact ⟨t, hperm.subset (List.take_subset 5 (sortedStores db) ht), rfl, rfl, rfl⟩
  · intro t htdb htout u hu
    have hmem : t ∈ sortedStores db := hperm.mem_iff.mpr htdb
    have hsplit := hsorted
    rw [← List.take_append_drop 5 (sortedStores db)] at hmem hsplit
    obtain ⟨_, _, hcross⟩ := List.pairwise_append.mp hsplit
    rcases List.mem_append.mp hmem with hin | hdrop
    · exact absurd hin htout
    · exact hcross u hu t hdrop

/-- A successful user update writes exactly the requested role into the
returned row. -/
theorem updateUser_success_role (db : DB) (uid : Nat) (nm em : String) (rl : Role)
    (res : User) (db2 : DB)
    (h : updateUser db uid nm em rl = .success res db2) : res.role = rl := by
  unfold updateUser at h
  split at h
  · simp at h
  · split at h
    · simp at h
    · split at h
      · simp at h
      · split at h
        · simp at h
        · rw [HandlerResult.success.injEq] at h
          rw [← h.1]

/-- C10: authorization reads the role frozen into the JWT at login, not
the stored row: after an admin changes a user's role, the rating gate and
the admin gate applied to a token issued before the change still follow
the token's embedded role, while a token issued from the updated row
follows the new role; the token lifetime constant is 24 hours. -/
theorem authorization_uses_token_role (db : DB) (uid : Nat) (nm em : String)
    (rl : Role) (u res : User) (db2 : DB)
    (hupd : updateUser db uid nm em rl = .success res db2) (sid : Nat) (v : ℚ) :
    tokenExpiresInHours = 24 ∧
    (issueToken u).role = u.role ∧ (issueToken u).id = u.id ∧
    ((submitRating db2 (issueToken u) sid v).statusOf = 403 ↔ u.role ≠ Role.USER) ∧
    res.role = rl ∧
    ((submitRating db2 (issueToken res) sid v).statusOf = 403 ↔ rl ≠ Role.USER) ∧
    (adminAllows (issueToken u) = true ↔ u.role = Role.ADMIN) := by
  have hres := updateUser_success_role db uid nm em rl res db2 hupd
  refine ⟨rfl, rfl, rfl, submitRating_status403_iff db2 (issueToken u) sid v, hres, ?_, ?_⟩
  · rw [← hres]
    exact submitRating_status403_iff db2 (issueToken res) sid v
  · simp [adminAllows, issueToken]

/-- The row of user 1 after the admin raises the role to OWNER. -/
def c10Res : User :=
  { id := 1, name := "Constantine Examplename", email := "user@example.com",
    role := Role.OWNER }

/-- The demo database after that role change. -/
def c10DB2 : DB :=
  { users := [c10Res, demoOwner], stores := [demoStore], ratings := [],
    nextStoreId := 2, nextRatingId := 1 }

/-- Witness for C10: user 1 logs in as USER, an admin then makes the user
an OWNER; the pre-change token still passes the USER gate on the updated
database, while a token from the updated row does not. -/
theorem authorization_uses_token_role_witness :
    tokenExpiresInHours = 24 ∧
    (issueToken demoUser).role = demoUser.role ∧ (issueToken demoUser).id = demoUser.id ∧
    ((submitRating c10DB2 (issueToken demoUser) 1 4).statusOf = 403 ↔
      demoUser.role ≠ Role.USER) ∧
    c10Res.role = Role.OWNER ∧
    ((submitRating c10DB2 (issueToken c10Res) 1 4).statusOf = 403 ↔
      Role.OWNER ≠ Role.USER) ∧
    (adminAllows (issueToken demoUser) = true ↔ demoUser.role = Role.ADMIN) :=
  authorization_uses_token_role demoDB 1 "Constantine Examplename" "user@example.com"
    Role.OWNER demoUser c10Res c10DB2 (by decide) 1 4

end StoreApp
